import Mathlib

/-!
Verification of the production traceability engine of `cec_web_trial_v4/app.py`:
the batch stage state machine (`update_batch_stage`), the inter-process transfer
ledger (`create_next_process_label` / `receive_next_process_label`), the scan
composite operation, the order-line tracking snapshot derivation
(`get_item_tracking_snapshot`) and the batch variance aggregator
(`get_batch_variance_rows`).

The SQLite tables are modelled as Lean lists of rows; `UPDATE ... WHERE id = ?`
becomes a map over the list that rewrites the matching rows; `query_one`
(`SELECT ... WHERE ...` + `fetchone`) becomes `List.find?`.  Python floats are
modelled as exact rationals (`ℚ`), and Python's `round(x, 2)` as exact
round-half-to-even on `ℚ`.  Text columns are `String` (`Option String` where
the column is nullable), and Python truthiness on strings ("" is falsy) is
modelled explicitly.
-/

namespace CecV4

/-- `PROCESS_FLOW` from `app.py`: the fixed seven-stage production sequence. -/
def PROCESS_FLOW : List String :=
  ["MIXING", "EXTRUDER", "VULCANISING", "CUTTING", "FINISHING", "PACKING", "STORE_RECEIVING"]

/-- Python truthiness of a string: non-empty strings are truthy. -/
def pyTruthy (s : String) : Bool := s ≠ ""

/-- Python `a or b` on optional strings (`None` and `""` are falsy). -/
def pyOrStr (a b : Option String) : Option String :=
  match a with
  | some s => if s = "" then b else some s
  | none => b

/-- Python's `round` to an integer: round half to even (banker's rounding),
modelled exactly on `ℚ`. -/
def pyRoundInt (q : ℚ) : ℤ :=
  let f := ⌊q⌋
  let frac := q - f
  if frac < 1 / 2 then f
  else if 1 / 2 < frac then f + 1
  else if f % 2 = 0 then f else f + 1

/-- Python's `round(x, 2)`: round to two decimal places, half to even. -/
def round2 (q : ℚ) : ℚ := (pyRoundInt (q * 100) : ℚ) / 100

/-- A row of the `batches` table (the columns the core reads or writes). -/
structure Batch where
  id : Nat
  batch_no : String
  job_id : Nat
  recipe_code : Option String
  planned_input_kg : ℚ
  current_process : String
  status : String
  barcode_text : String
deriving DecidableEq, Repr

/-- A row of the `jobs` table (the columns the core reads). -/
structure Job where
  id : Nat
  job_no : String
  customer_id : Nat
  product_id : Nat
  source_customer_file_item_id : Option Nat
deriving DecidableEq, Repr

/-- A row of the `customers` table. -/
structure Customer where
  id : Nat
  code : String
  name : String
deriving DecidableEq, Repr

/-- A row of the `products` table. -/
structure Product where
  id : Nat
  sku : String
  name : String
deriving DecidableEq, Repr

/-- A row of the `process_logs` table.  `input_qty_kg`, `good_qty_kg` and
`reject_qty_kg` are `NOT NULL` columns in the schema. -/
structure ProcessLog where
  id : Nat
  batch_id : Nat
  process_name : String
  scan_time : String
  input_qty_kg : ℚ
  good_qty_kg : ℚ
  reject_qty_kg : ℚ
  operator_name : Option String
  machine_id : Option Nat
  next_action : String
  remarks : Option String
deriving DecidableEq, Repr

/-- A row of the `next_process_labels` table. -/
structure NextProcessLabel where
  id : Nat
  transfer_barcode : String
  batch_id : Nat
  from_process : String
  to_process : String
  issued_qty_kg : ℚ
  received_qty_kg : Option ℚ
  qty_loss_kg : ℚ
  status : String
  recipe_code : Option String
  item_name : Option String
  document_no : Option String
  customer_name : Option String
  issued_at : String
  received_at : Option String
  issued_machine_id : Option Nat
  received_machine_id : Option Nat
  issued_by : Option String
  received_by : Option String
  notes : Option String
deriving DecidableEq, Repr

/-- The ledger store: the tables touched by the traceability core. -/
structure Store where
  batches : List Batch
  jobs : List Job
  customers : List Customer
  products : List Product
  process_logs : List ProcessLog
  next_process_labels : List NextProcessLabel
deriving DecidableEq, Repr

/-- `UPDATE batches SET current_process = ?, status = ? WHERE id = ?`. -/
def updateBatchRow (bs : List Batch) (bid : Nat) (proc stat : String) : List Batch :=
  bs.map (fun b => if b.id = bid then { b with current_process := proc, status := stat } else b)

/-- `update_batch_stage` from `app.py` (lines 935-951): the stage state
machine transition. -/
def update_batch_stage (db : Store) (batch_id : Nat) (process_name next_action : String) :
    Store :=
  if next_action = "REJECTED" then
    { db with batches := updateBatchRow db.batches batch_id process_name "HOLD" }
  else
    let next_stage :=
      if process_name ∈ PROCESS_FLOW then
        let idx := PROCESS_FLOW.indexOf process_name
        if idx < PROCESS_FLOW.length - 1 then PROCESS_FLOW.getD (idx + 1) "COMPLETED"
        else "COMPLETED"
      else "COMPLETED"
    let stat := if next_stage = "COMPLETED" then "COMPLETED" else "OPEN"
    { db with batches := updateBatchRow db.batches batch_id next_stage stat }

/-- The messages returned by `receive_next_process_label`, one constructor per
literal message string of the source.  `received` carries the two quantities as
the `:.2f` format displays them (rounded to two decimal places). -/
inductive ReceiveMsg where
  | not_found
  | already_received
  | stage_mismatch (expected actual : String)
  | received (received_qty_2dp loss_2dp : ℚ)
deriving DecidableEq, Repr

/-- `UPDATE next_process_labels SET ... WHERE id = ?`. -/
def updateLabelRow (ls : List NextProcessLabel) (lid : Nat)
    (f : NextProcessLabel → NextProcessLabel) : List NextProcessLabel :=
  ls.map (fun l => if l.id = lid then f l else l)

/-- `receive_next_process_label` from `app.py` (lines 892-917).  `now` stands
for `datetime.now()` at the receive timestamp.  The source computes
`(label['issued_qty_kg'] or 0) - received_qty_kg`; `issued_qty_kg` is a
`NOT NULL` numeric column and `x or 0` is the identity on numbers
(`0.0` is falsy and `0.0 or 0` is `0`), so the `or 0` is dropped. -/
def receive_next_process_label (db : Store) (transfer_barcode receiving_process : String)
    (received_qty_kg : ℚ) (machine_id : Option Nat) (received_by : Option String)
    (notes : Option String) (now : String) : (Bool × ReceiveMsg) × Store :=
  match db.next_process_labels.find? (fun l => l.transfer_barcode = transfer_barcode) with
  | none => ((false, .not_found), db)
  | some label =>
    if label.status ≠ "ISSUED" then ((false, .already_received), db)
    else if receiving_process ≠ label.to_process then
      ((false, .stage_mismatch label.to_process receiving_process), db)
    else
      let qty_loss_kg := max 0 (round2 (label.issued_qty_kg - received_qty_kg))
      let db1 := { db with
        next_process_labels := updateLabelRow db.next_process_labels label.id
          (fun l => { l with
            received_qty_kg := some received_qty_kg
            qty_loss_kg := qty_loss_kg
            status := "RECEIVED"
            received_at := some now
            received_machine_id := machine_id
            received_by := received_by
            notes := pyOrStr notes l.notes }) }
      let db2 := { db1 with
        batches := updateBatchRow db1.batches label.batch_id receiving_process "OPEN" }
      ((true, .received (round2 received_qty_kg) (round2 qty_loss_kg)), db2)

/-- `build_next_process_barcode` from `app.py` (lines 823-825); `stamp` stands
for `datetime.now().strftime('%Y%m%d%H%M%S')`. -/
def build_next_process_barcode (batch_no from_process to_process stamp : String) : String :=
  "NP-" ++ batch_no ++ "-" ++ from_process.take 3 ++ "-" ++ to_process.take 3 ++ "-" ++ stamp

/-- The row returned by the batch/job/customer/product join at the top of
`create_next_process_label`. -/
structure BatchInfo where
  batch_no : String
  recipe_code : Option String
  job_no : String
  customer_name : String
  item_name : String
deriving DecidableEq, Repr

/-- The `SELECT ... FROM batches JOIN jobs JOIN customers JOIN products WHERE
b.id = ?` lookup in `create_next_process_label`. -/
def batch_info? (db : Store) (batch_id : Nat) : Option BatchInfo := do
  let b ← db.batches.find? (fun x => x.id = batch_id)
  let j ← db.jobs.find? (fun x => x.id = b.job_id)
  let c ← db.customers.find? (fun x => x.id = j.customer_id)
  let p ← db.products.find? (fun x => x.id = j.product_id)
  pure { batch_no := b.batch_no, recipe_code := b.recipe_code, job_no := j.job_no,
         customer_name := c.name, item_name := p.name }

/-- `create_next_process_label` from `app.py` (lines 828-889).  `stamp` and
`micro` stand for the two `datetime.now()` format results used for the barcode
and its collision disambiguator, `now` for the `issued_at` timestamp, and
`new_id` for the autoincrement id of the inserted row.  On a `UNIQUE`
collision the source retries once with `micro` appended; if that barcode also
collides the second `INSERT` raises out of the function with no row inserted,
modelled here by the `(none, db)` result. -/
def create_next_process_label (db : Store) (batch_id : Nat)
    (from_process to_process : String) (issued_qty_kg : ℚ) (machine_id : Option Nat)
    (operator_name : Option String) (notes : Option String) (stamp micro now : String)
    (new_id : Nat) : Option String × Store :=
  match batch_info? db batch_id with
  | none => (none, db)
  | some info =>
    let barcode0 := build_next_process_barcode info.batch_no from_process to_process stamp
    let collides := db.next_process_labels.any (fun l => l.transfer_barcode = barcode0)
    let barcode := if collides then barcode0 ++ "-" ++ micro else barcode0
    if db.next_process_labels.any (fun l => l.transfer_barcode = barcode) then (none, db)
    else
      let label : NextProcessLabel :=
        { id := new_id
          transfer_barcode := barcode
          batch_id := batch_id
          from_process := from_process
          to_process := to_process
          issued_qty_kg := issued_qty_kg
          received_qty_kg := none
          qty_loss_kg := 0
          status := "ISSUED"
          recipe_code := info.recipe_code
          item_name := some info.item_name
          document_no := some info.job_no
          customer_name := some info.customer_name
          issued_at := now
          received_at := none
          issued_machine_id := machine_id
          received_machine_id := none
          issued_by := operator_name
          received_by := none
          notes := notes }
      (some barcode, { db with next_process_labels := db.next_process_labels ++ [label] })

/-- The outcomes of the process-scan branch of the `/scan` route. -/
inductive ScanOutcome where
  | batch_not_found
  | invalid_process
  | invalid_action
  | recorded (issued_transfer_barcode : Option String)
deriving DecidableEq, Repr

/-- The process-scan branch of the `/scan` route (`app.py` lines 1543-1586):
batch lookup by batch number or barcode text, stage and action validation,
`process_logs` insert, `update_batch_stage`, and the conditional
`create_next_process_label` issue.  The trailing side effects on
`customer_file_items`, `item_tracking_events` and `machines` (lines 1589-1627)
touch tables outside this model and do not feed back into the state modelled
here.  The optional machine validation (lines 1557-1566) is the
no-machine-selected path. -/
def scan_process (db : Store) (barcode_text process_name scan_time : String)
    (input_qty_kg good_qty_kg reject_qty_kg : ℚ) (next_action : String)
    (operator_name remarks : Option String) (machine_id : Option Nat)
    (log_id label_id : Nat) (stamp micro now : String) : ScanOutcome × Store :=
  match db.batches.find?
      (fun b => b.batch_no = barcode_text ∨ b.barcode_text = barcode_text) with
  | none => (.batch_not_found, db)
  | some batch =>
    if process_name ∉ PROCESS_FLOW then (.invalid_process, db)
    else if next_action ∉ (["MOVE_NEXT", "REJECTED", "REWORK"] : List String) then
      (.invalid_action, db)
    else
      let lg : ProcessLog :=
        { id := log_id
          batch_id := batch.id
          process_name := process_name
          scan_time := scan_time
          input_qty_kg := input_qty_kg
          good_qty_kg := good_qty_kg
          reject_qty_kg := reject_qty_kg
          operator_name := operator_name
          machine_id := machine_id
          next_action := next_action
          remarks := remarks }
      let db1 := { db with process_logs := db.process_logs ++ [lg] }
      let db2 := update_batch_stage db1 batch.id process_name next_action
      if next_action = "MOVE_NEXT" ∧ process_name ∈ PROCESS_FLOW ∧
          process_name ≠ PROCESS_FLOW.getLastD "" then
        let to_process := PROCESS_FLOW.getD (PROCESS_FLOW.indexOf process_name + 1) ""
        let res := create_next_process_label db2 batch.id process_name to_process
          good_qty_kg machine_id operator_name remarks stamp micro now label_id
        (.recorded res.1, res.2)
      else (.recorded none, db2)

/-- A calendar date-time as Python's `datetime` stores it
(`strptime`-produced values have `microsecond = 0` for the formats used). -/
structure PyDateTime where
  year : Nat
  month : Nat
  day : Nat
  hour : Nat
  minute : Nat
  second : Nat
deriving DecidableEq, Repr

/-- An order-preserving key for `PyDateTime`: Python compares datetimes
lexicographically by component, and for components inside their calendar
ranges (`month ≤ 12`, `day ≤ 31`, `hour ≤ 23`, `minute, second ≤ 59`) that
order coincides with comparison of this mixed-radix key. -/
def PyDateTime.key (t : PyDateTime) : Nat :=
  ((((t.year * 13 + t.month) * 32 + t.day) * 24 + t.hour) * 60 + t.minute) * 60 + t.second

/-- Python `a < b` on datetimes. -/
def PyDateTime.lt (a b : PyDateTime) : Bool := a.key < b.key

/-- Python `a.date() == b.date()`. -/
def PyDateTime.sameDate (a b : PyDateTime) : Bool :=
  a.year = b.year ∧ a.month = b.month ∧ a.day = b.day

/-- Split a character list on a separator, keeping empty groups (the grouping
behaviour of matching a text against a fixed-separator format). -/
def splitOnChar (sep : Char) (cs : List Char) : List (List Char) :=
  cs.foldr
    (fun c acc =>
      if c = sep then [] :: acc
      else
        match acc with
        | [] => [[c]]
        | g :: gs => (c :: g) :: gs)
    [[]]

/-- Decimal value of a digit list. -/
def digitsVal (cs : List Char) : Nat := cs.foldl (fun n c => n * 10 + (c.toNat - 48)) 0

def allDigits (cs : List Char) : Bool := cs.all Char.isDigit

def isLeapYear (y : Nat) : Bool := (y % 4 = 0 ∧ y % 100 ≠ 0) ∨ y % 400 = 0

def daysInMonth (y m : Nat) : Nat :=
  if m = 2 then (if isLeapYear y then 29 else 28)
  else if m = 4 ∨ m = 6 ∨ m = 9 ∨ m = 11 then 30
  else 31

/-- The `%Y-%m-%d` field of `strptime`: `%Y` matches exactly four digits,
`%m` and `%d` one or two digits; the `datetime` constructor then requires
`1 ≤ year`, a month in `1..12` and a day within the month. -/
def parseDatePart (cs : List Char) : Option (Nat × Nat × Nat) :=
  match splitOnChar '-' cs with
  | [ys, ms, ds] =>
    if allDigits ys ∧ allDigits ms ∧ allDigits ds ∧ ys.length = 4 ∧
        (ms.length = 1 ∨ ms.length = 2) ∧ (ds.length = 1 ∨ ds.length = 2) then
      let y := digitsVal ys
      let m := digitsVal ms
      let d := digitsVal ds
      if 1 ≤ y ∧ 1 ≤ m ∧ m ≤ 12 ∧ 1 ≤ d ∧ d ≤ daysInMonth y m then some (y, m, d) else none
    else none
  | _ => none

/-- One or two digit `%H` (0-23), `%M` or `%S` (0-59) field. -/
def parseTimeField (cs : List Char) (bound : Nat) : Option Nat :=
  if allDigits cs ∧ (cs.length = 1 ∨ cs.length = 2) then
    let v := digitsVal cs
    if v ≤ bound then some v else none
  else none

/-- The characters Python's `str.strip()` and its regex class `\s` (in `str`
patterns, as `strptime` uses) treat as whitespace: the Unicode whitespace
code points together with `\x1c`-`\x1f` and `\x85`. -/
def pyIsSpace (c : Char) : Bool :=
  c.toNat = 32 ∨ (9 ≤ c.toNat ∧ c.toNat ≤ 13) ∨ (28 ≤ c.toNat ∧ c.toNat ≤ 31) ∨
  c.toNat = 133 ∨ c.toNat = 160 ∨ c.toNat = 5760 ∨
  (8192 ≤ c.toNat ∧ c.toNat ≤ 8202) ∨ c.toNat = 8232 ∨ c.toNat = 8233 ∨
  c.toNat = 8239 ∨ c.toNat = 8287 ∨ c.toNat = 12288

/-- Matching the space of the `'%Y-%m-%d %H:%M'`-style formats: `strptime`
compiles a format-string space to the regex `\s+`, so the text must decompose
as a whitespace-free date field, a nonempty whitespace run, and a
whitespace-free time field with nothing after it (`strptime` requires the
whole text to be consumed, and the date/time sub-patterns match no
whitespace). -/
def splitDateTime (cs : List Char) : Option (List Char × List Char) :=
  let d := cs.takeWhile (fun c => !pyIsSpace c)
  let r := cs.dropWhile (fun c => !pyIsSpace c)
  let t := r.dropWhile pyIsSpace
  if r = [] then none
  else if t = [] then none
  else if t.any pyIsSpace then none
  else some (d, t)

/-- `strptime(value, '%Y-%m-%d %H:%M')`. -/
def tryFormatHM (cs : List Char) : Option PyDateTime :=
  match splitDateTime cs with
  | some (datePart, timePart) => do
    let (y, m, d) ← parseDatePart datePart
    match splitOnChar ':' timePart with
    | [hs, mins] => do
      let h ← parseTimeField hs 23
      let mi ← parseTimeField mins 59
      pure ⟨y, m, d, h, mi, 0⟩
    | _ => none
  | none => none

/-- `strptime(value, '%Y-%m-%d %H:%M:%S')`. -/
def tryFormatHMS (cs : List Char) : Option PyDateTime :=
  match splitDateTime cs with
  | some (datePart, timePart) => do
    let (y, m, d) ← parseDatePart datePart
    match splitOnChar ':' timePart with
    | [hs, mins, ss] => do
      let h ← parseTimeField hs 23
      let mi ← parseTimeField mins 59
      let s ← parseTimeField ss 59
      pure ⟨y, m, d, h, mi, s⟩
    | _ => none
  | none => none

/-- `strptime(value, '%Y-%m-%d')`. -/
def tryFormatD (cs : List Char) : Option PyDateTime :=
  match parseDatePart cs with
  | some (y, m, d) => some ⟨y, m, d, 0, 0, 0⟩
  | none => none

/-- Python `str.strip()`: drop whitespace from both ends. -/
def pyStrip (cs : List Char) : List Char :=
  ((cs.dropWhile pyIsSpace).reverse.dropWhile pyIsSpace).reverse

/-- `_parse_dt` from `app.py` (lines 507-516): `None` or `""` parses to
nothing; otherwise the text is stripped, `'T'` replaced by a space, and the
three formats `'%Y-%m-%d %H:%M'`, `'%Y-%m-%d %H:%M:%S'`, `'%Y-%m-%d'` are
tried in order; any failure falls through to `none`. -/
def _parse_dt (value : Option String) : Option PyDateTime :=
  match value with
  | none => none
  | some s =>
    if s = "" then none
    else
      let cs := (pyStrip s.toList).map (fun c => if c = 'T' then ' ' else c)
      ((tryFormatHM cs).orElse fun _ => (tryFormatHMS cs).orElse fun _ => tryFormatD cs)

/-- A row of the `customer_file_items` table joined with its customer file
(the columns the snapshot derivation reads). -/
structure ItemRow where
  id : Nat
  status : String
  due_date : Option String
  created_at : String
  job_id : Option Nat
deriving DecidableEq, Repr

/-- A row of the `item_planner_updates` table. -/
structure PlannerUpdateRow where
  planner_status : String
  remaining_hours : Option ℚ
  ready_at : Option String
  note : Option String
  updated_at : String
deriving DecidableEq, Repr

/-- The derived fields of a tracking snapshot. -/
structure Snapshot where
  status : String
  current_stage : String
  progress_pct : ℤ
  risk : String
  last_update : Option String
deriving DecidableEq, Repr

/-- The `for candidate in [...]: if candidate: last_update = candidate; break`
loop: the first truthy entry, `None` when every entry is falsy. -/
def pyFirstTruthy : List (Option String) → Option String
  | [] => none
  | some s :: rest => if s = "" then pyFirstTruthy rest else some s
  | none :: rest => pyFirstTruthy rest

/-- The status/stage/progress/risk/last-update derivation of
`get_item_tracking_snapshot` (`app.py` lines 600-645), applied to the rows
the function's queries selected: the order line (`item`), its planner update
if any, the most recent batch of its job if any, the most recent process log
of that batch if any, and the `event_time` of the line's most recent tracking
event if any.  `int(x)` on the non-negative progress value is `⌊x⌋`. -/
def snapshot_core (item : ItemRow) (planner : Option PlannerUpdateRow)
    (batch : Option Batch) (latest_log : Option ProcessLog)
    (latest_event_time : Option String) : Snapshot :=
  let base :=
    match planner with
    | some p => if pyTruthy p.planner_status then p.planner_status else item.status
    | none => item.status
  let current_status := if base = "" then "WAITING_PLANNING" else base
  let current_stage := "ORDER RECEIVED"
  let progress_pct : ℤ := 5
  let (current_stage, progress_pct, current_status) :=
    if item.job_id.isSome then
      ("JOB CREATED", (18 : ℤ),
        if current_status = "WAITING_PLANNING" ∨ current_status = "PENDING_JOB" then
          "JOB_CREATED"
        else current_status)
    else (current_stage, progress_pct, current_status)
  let (current_stage, current_status, progress_pct) :=
    match batch with
    | some b =>
      (if pyTruthy b.current_process then b.current_process else "MIXING",
        if b.status = "OPEN" then "IN_PRODUCTION"
        else if b.status = "HOLD" then "HOLD" else "COMPLETED",
        (30 : ℤ))
    | none => (current_stage, current_status, progress_pct)
  let (current_stage, progress_pct, current_status) :=
    match latest_log with
    | some lg =>
      let prog :=
        if lg.process_name ∈ PROCESS_FLOW then
          min 100
            ⌊((PROCESS_FLOW.indexOf lg.process_name + 1 : ℚ) / (PROCESS_FLOW.length : ℚ)) * 100⌋
        else progress_pct
      (lg.process_name, prog,
        if lg.next_action = "REJECTED" then "HOLD" else current_status)
    | none => (current_stage, progress_pct, current_status)
  let (current_status, current_stage, progress_pct) :=
    match batch with
    | some b =>
      if b.status = "COMPLETED" then ("COMPLETED", "STORE_RECEIVING", (100 : ℤ))
      else (current_status, current_stage, progress_pct)
    | none => (current_status, current_stage, progress_pct)
  let ready_at := match planner with | some p => p.ready_at | none => none
  let planner_updated_at := match planner with | some p => some p.updated_at | none => none
  let due_dt := _parse_dt item.due_date
  let ready_dt := _parse_dt ready_at
  let risk :=
    match due_dt, ready_dt with
    | some d, some r =>
      if PyDateTime.lt d r then "RISK"
      else if PyDateTime.sameDate r d then "TIGHT"
      else "ON_TRACK"
    | some _, none => if current_status ≠ "COMPLETED" then "CHECK" else "ON_TRACK"
    | none, _ => "ON_TRACK"
  let last_update := pyFirstTruthy
    [latest_event_time, latest_log.map (fun lg => lg.scan_time), planner_updated_at,
      some item.created_at]
  { status := current_status
    current_stage := current_stage
    progress_pct := progress_pct
    risk := risk
    last_update := last_update }

/-- The per-scan `loss = (log['input_qty_kg'] or 0) - (log['good_qty_kg'] or 0)`
delta of the variance loop; both are `NOT NULL` numeric columns and `x or 0`
is the identity on numbers, so the `or 0` is dropped. -/
def logDelta (lg : ProcessLog) : ℚ := lg.input_qty_kg - lg.good_qty_kg

/-- The per-batch loop state of `get_batch_variance_rows`: running
`(max_loss, probable_loss_process)` over the batch's scans in time order,
updated when a scan's delta strictly exceeds the running maximum. -/
def scanBest : List ProcessLog → ℚ → Option String → ℚ × Option String
  | [], max_loss, probable => (max_loss, probable)
  | lg :: rest, max_loss, probable =>
    if max_loss < logDelta lg then scanBest rest (logDelta lg) (some lg.process_name)
    else scanBest rest max_loss probable

/-- One row of the batch variance report (the derived columns). -/
structure VarianceRow where
  input_qty_kg : ℚ
  good_output_kg : ℚ
  total_reject_kg : ℚ
  variance_kg : Option ℚ
  variance_pct : Option ℚ
  process_count : Nat
  probable_loss_process : Option String
deriving DecidableEq, Repr

/-- The per-batch body of `get_batch_variance_rows` (`app.py` lines 740-773),
applied to the batch's `planned_input_kg` and its process logs ordered by
`datetime(scan_time), id` ascending as the query returns them.  `max_loss`
starts at `-1.0` and `probable_loss_process` at `None`. -/
def get_batch_variance_row (planned_input_kg : ℚ) (logs : List ProcessLog) : VarianceRow :=
  let first_input := match logs with | [] => planned_input_kg | lg :: _ => lg.input_qty_kg
  let latest_good : Option ℚ := logs.getLast?.map (fun lg => lg.good_qty_kg)
  let total_reject : ℚ := logs.foldl (fun acc lg => acc + lg.reject_qty_kg) 0
  let best := scanBest logs (-1) none
  let good_output := latest_good.getD 0
  let variance : Option ℚ :=
    match latest_good with
    | some _ => some (round2 (first_input - good_output))
    | none => none
  let variance_pct : Option ℚ :=
    match variance with
    | some v => if first_input ≠ 0 then some (round2 (v / first_input * 100)) else none
    | none => none
  { input_qty_kg := first_input
    good_output_kg := good_output
    total_reject_kg := round2 total_reject
    variance_kg := variance
    variance_pct := variance_pct
    process_count := logs.length
    probable_loss_process := best.2 }

/-! ## Sample rows used by concrete witnesses and counterexamples -/

def sampleCustomer : Customer := { id := 1, code := "CUS-001", name := "Alpha Rubber" }

def sampleProduct : Product := { id := 1, sku := "PRD-001", name := "Rubber Seal" }

def sampleJob : Job :=
  { id := 1, job_no := "JOB-0001", customer_id := 1, product_id := 1,
    source_customer_file_item_id := some 1 }

def sampleBatch : Batch :=
  { id := 1, batch_no := "BAT-0001", job_id := 1, recipe_code := some "RC-01",
    planned_input_kg := 500, current_process := "MIXING", status := "OPEN",
    barcode_text := "BAT-0001" }

def sampleStore : Store :=
  { batches := [sampleBatch], jobs := [sampleJob], customers := [sampleCustomer],
    products := [sampleProduct], process_logs := [], next_process_labels := [] }

/-- An issued transfer label on the sample batch. -/
def sampleIssuedLabel : NextProcessLabel :=
  { id := 1, transfer_barcode := "NP-BAT-0001-MIX-EXT-20260301080000", batch_id := 1,
    from_process := "MIXING", to_process := "EXTRUDER", issued_qty_kg := 496,
    received_qty_kg := none, qty_loss_kg := 0, status := "ISSUED",
    recipe_code := some "RC-01", item_name := some "Rubber Seal",
    document_no := some "JOB-0001", customer_name := some "Alpha Rubber",
    issued_at := "2026-03-01 08:00", received_at := none, issued_machine_id := none,
    received_machine_id := none, issued_by := some "Ali", received_by := none,
    notes := none }

def sampleStoreIssued : Store := { sampleStore with next_process_labels := [sampleIssuedLabel] }

/-- `List.find?` commutes with a map that does not change whether an element
satisfies the predicate (used for the row-update maps, which keep the key
columns the lookups filter on). -/
lemma find?_map_pres {α : Type} (g : α → α) (p : α → Bool) (h : ∀ a, p (g a) = p a) :
    ∀ ls : List α, (ls.map g).find? p = (ls.find? p).map g := by
  intro ls
  induction ls with
  | nil => rfl
  | cons a as ih =>
    by_cases hp : p a
    · rw [List.map_cons, List.find?_cons_of_pos _ (by rw [h]; exact hp),
        List.find?_cons_of_pos _ hp]
      rfl
    · rw [List.map_cons, List.find?_cons_of_neg _ (by rw [h]; simpa using hp),
        List.find?_cons_of_neg _ hp, ih]

/-! ## Claims -/

/-- C1: for every batch and every scan, `update_batch_stage(batch, stage_scanned,
next_action)` sets the batch's `(current_process, status)` pair as follows: if
`next_action = REJECTED`, to `(stage_scanned, HOLD)`; otherwise, if
`stage_scanned` is the last stage of the seven-stage sequence, to
`(COMPLETED, COMPLETED)`; if `stage_scanned` is an earlier member of the
sequence, to (the entry following it in the sequence, `OPEN`); and if
`stage_scanned` is not a member of the sequence, to `(COMPLETED, COMPLETED)`.
It changes no other field of the batch and no other row (`updateBatchRow`
rewrites exactly the `current_process` and `status` fields of the rows whose
`id` matches, and the other tables are untouched). -/
theorem C1_stage_transition (db : Store) (bid : Nat) (pn na : String) :
    (update_batch_stage db bid pn na).jobs = db.jobs ∧
    (update_batch_stage db bid pn na).customers = db.customers ∧
    (update_batch_stage db bid pn na).products = db.products ∧
    (update_batch_stage db bid pn na).process_logs = db.process_logs ∧
    (update_batch_stage db bid pn na).next_process_labels = db.next_process_labels ∧
    (na = "REJECTED" →
      (update_batch_stage db bid pn na).batches = updateBatchRow db.batches bid pn "HOLD") ∧
    (na ≠ "REJECTED" → pn = "STORE_RECEIVING" →
      (update_batch_stage db bid pn na).batches =
        updateBatchRow db.batches bid "COMPLETED" "COMPLETED") ∧
    (na ≠ "REJECTED" → ∀ i, i + 1 < PROCESS_FLOW.length → pn = PROCESS_FLOW.getD i "" →
      (update_batch_stage db bid pn na).batches =
        updateBatchRow db.batches bid (PROCESS_FLOW.getD (i + 1) "") "OPEN") ∧
    (na ≠ "REJECTED" → pn ∉ PROCESS_FLOW →
      (update_batch_stage db bid pn na).batches =
        updateBatchRow db.batches bid "COMPLETED" "COMPLETED") := by
  refine ⟨?_, ?_, ?_, ?_, ?_, ?_, ?_, ?_, ?_⟩
  · unfold update_batch_stage; split <;> rfl
  · unfold update_batch_stage; split <;> rfl
  · unfold update_batch_stage; split <;> rfl
  · unfold update_batch_stage; split <;> rfl
  · unfold update_batch_stage; split <;> rfl
  · intro h; simp [update_batch_stage, h]
  · intro hna hpn; subst hpn; simp only [update_batch_stage, if_neg hna]; rfl
  · intro hna i hi hpn
    have hi6 : i ≤ 5 := by simpa [PROCESS_FLOW] using Nat.lt_succ_iff.mp hi
    interval_cases i <;> subst hpn <;> simp only [update_batch_stage, if_neg hna] <;> rfl
  · intro hna hpn
    simp only [update_batch_stage, if_neg hna, if_neg hpn]
    rfl

/-- Witness for C1: a `MOVE_NEXT` scan at `MIXING` on the sample store moves
the batch row to `(EXTRUDER, OPEN)`. -/
theorem C1_stage_transition_witness :
    (update_batch_stage sampleStore 1 "MIXING" "MOVE_NEXT").batches =
      updateBatchRow sampleStore.batches 1 "EXTRUDER" "OPEN" :=
  (C1_stage_transition sampleStore 1 "MIXING" "MOVE_NEXT").2.2.2.2.2.2.2.1
    (by decide) 0 (by decide) (by decide)


/-- C2: for every transfer label whose status is ISSUED, calling
`receive_next_process_label` with that label's code, a receiving stage equal
to the label's `to_process`, and any received quantity succeeds (`ok = true`);
it sets the label's `received_qty` to the given quantity, its loss to
`max(0, round(issued_qty - received_qty, 2))` -- never negative -- its status
to RECEIVED, and its receive timestamp, machine and operator; it sets the
referenced batch's `current_process` to the receiving stage and its status to
OPEN; the returned message reports the received and lost quantities to two
decimal places. -/
theorem C2_receive_success (db : Store) (code proc : String) (q : ℚ)
    (machine_id : Option Nat) (receiver notes : Option String) (now : String)
    (label : NextProcessLabel)
    (hfind : db.next_process_labels.find? (fun l => l.transfer_barcode = code) = some label)
    (hstatus : label.status = "ISSUED")
    (hproc : proc = label.to_process) :
    (receive_next_process_label db code proc q machine_id receiver notes now).1.1 = true ∧
    (receive_next_process_label db code proc q machine_id receiver notes now).1.2 =
      .received (round2 q) (round2 (max 0 (round2 (label.issued_qty_kg - q)))) ∧
    (0 : ℚ) ≤ max 0 (round2 (label.issued_qty_kg - q)) ∧
    (receive_next_process_label db code proc q machine_id receiver notes now).2.next_process_labels =
      updateLabelRow db.next_process_labels label.id
        (fun l => { l with
          received_qty_kg := some q
          qty_loss_kg := max 0 (round2 (label.issued_qty_kg - q))
          status := "RECEIVED"
          received_at := some now
          received_machine_id := machine_id
          received_by := receiver
          notes := pyOrStr notes l.notes }) ∧
    (receive_next_process_label db code proc q machine_id receiver notes now).2.batches =
      updateBatchRow db.batches label.batch_id proc "OPEN" ∧
    (receive_next_process_label db code proc q machine_id receiver notes now).2.jobs = db.jobs ∧
    (receive_next_process_label db code proc q machine_id receiver notes now).2.customers =
      db.customers ∧
    (receive_next_process_label db code proc q machine_id receiver notes now).2.products =
      db.products ∧
    (receive_next_process_label db code proc q machine_id receiver notes now).2.process_logs =
      db.process_logs := by
  subst hproc
  simp [receive_next_process_label, hfind, hstatus, le_max_left]


/-- Witness for C2: receiving the sample issued label (496 KG issued) at
EXTRUDER with 490 KG succeeds. -/
theorem C2_receive_success_witness :
    (receive_next_process_label sampleStoreIssued "NP-BAT-0001-MIX-EXT-20260301080000"
      "EXTRUDER" 490 none (some "Tan") none "2026-03-01 09:00").1.1 = true :=
  (C2_receive_success sampleStoreIssued "NP-BAT-0001-MIX-EXT-20260301080000" "EXTRUDER" 490
    none (some "Tan") none "2026-03-01 09:00" sampleIssuedLabel
    (by decide) (by decide) (by decide)).1

/-- C3: `receive_next_process_label` fails (`ok = false`) exactly when no label
matches the code (NotFound), the matched label's status is not ISSUED
(AlreadyReceived), or the receiving stage differs from the label's
`to_process` (StageMismatch, naming the expected stage); on every failure the
store is unchanged; and after a successful receive, receiving the same code
again returns AlreadyReceived and leaves the whole store as the first receive
left it. -/
theorem C3_receive_failures (db : Store) (code proc : String) (q : ℚ)
    (machine_id : Option Nat) (receiver notes : Option String) (now : String) :
    ((receive_next_process_label db code proc q machine_id receiver notes now).1.1 = false ↔
      (db.next_process_labels.find? (fun l => l.transfer_barcode = code) = none ∨
        ∃ label,
          db.next_process_labels.find? (fun l => l.transfer_barcode = code) = some label ∧
          (label.status ≠ "ISSUED" ∨ proc ≠ label.to_process))) ∧
    (db.next_process_labels.find? (fun l => l.transfer_barcode = code) = none →
      (receive_next_process_label db code proc q machine_id receiver notes now).1.2 =
        .not_found) ∧
    (∀ label,
      db.next_process_labels.find? (fun l => l.transfer_barcode = code) = some label →
      (label.status ≠ "ISSUED" →
        (receive_next_process_label db code proc q machine_id receiver notes now).1.2 =
          .already_received) ∧
      (label.status = "ISSUED" → proc ≠ label.to_process →
        (receive_next_process_label db code proc q machine_id receiver notes now).1.2 =
          .stage_mismatch label.to_process proc)) ∧
    ((receive_next_process_label db code proc q machine_id receiver notes now).1.1 = false →
      (receive_next_process_label db code proc q machine_id receiver notes now).2 = db) ∧
    ((receive_next_process_label db code proc q machine_id receiver notes now).1.1 = true →
      ∀ (proc' : String) (q' : ℚ) (machine' : Option Nat) (receiver' notes' : Option String)
        (now' : String),
        receive_next_process_label
          (receive_next_process_label db code proc q machine_id receiver notes now).2
          code proc' q' machine' receiver' notes' now' =
        ((false, .already_received),
          (receive_next_process_label db code proc q machine_id receiver notes now).2)) := by
  rcases hfind : db.next_process_labels.find? (fun l => l.transfer_barcode = code) with _ | label
  · simp [receive_next_process_label, hfind]
  · by_cases hst : label.status = "ISSUED"
    · by_cases hproc : proc = label.to_process
      · subst hproc
        refine ⟨?_, ?_, ?_, ?_, ?_⟩
        · simp [receive_next_process_label, hfind, hst]
        · intro h; rw [h] at hfind; exact absurd hfind (by simp)
        · intro label' hl'
          rw [hfind] at hl'
          injection hl' with hl'
          subst hl'
          exact ⟨fun h => absurd hst h, fun _ h => absurd rfl h⟩
        · intro h
          simp [receive_next_process_label, hfind, hst] at h
        · intro _ proc' q' machine' receiver' notes' now'
          have hlab :
              (receive_next_process_label db code label.to_process q machine_id receiver notes
                now).2.next_process_labels =
              updateLabelRow db.next_process_labels label.id
                (fun l => { l with
                  received_qty_kg := some q
                  qty_loss_kg := max 0 (round2 (label.issued_qty_kg - q))
                  status := "RECEIVED"
                  received_at := some now
                  received_machine_id := machine_id
                  received_by := receiver
                  notes := pyOrStr notes l.notes }) := by
            simp [receive_next_process_label, hfind, hst]
          have hfind2 :
              (receive_next_process_label db code label.to_process q machine_id receiver notes
                now).2.next_process_labels.find? (fun l => l.transfer_barcode = code) =
              some { label with
                received_qty_kg := some q
                qty_loss_kg := max 0 (round2 (label.issued_qty_kg - q))
                status := "RECEIVED"
                received_at := some now
                received_machine_id := machine_id
                received_by := receiver
                notes := pyOrStr notes label.notes } := by
            rw [hlab, updateLabelRow, find?_map_pres _ _ (by
              intro a
              by_cases ha : a.id = label.id <;> simp [ha]), hfind]
            simp
          rw [receive_next_process_label.eq_def]
          simp only [hfind2]
          simp
      · refine ⟨?_, ?_, ?_, ?_, ?_⟩
        · simp [receive_next_process_label, hfind, hst, hproc]
        · intro h; rw [h] at hfind; exact absurd hfind (by simp)
        · intro label' hl'
          rw [hfind] at hl'
          injection hl' with hl'
          subst hl'
          refine ⟨fun h => absurd hst h, fun _ _ => ?_⟩
          simp [receive_next_process_label, hfind, hst, hproc]
        · intro _
          simp [receive_next_process_label, hfind, hst, hproc]
        · intro h
          simp [receive_next_process_label, hfind, hst, hproc] at h
    · refine ⟨?_, ?_, ?_, ?_, ?_⟩
      · simp [receive_next_process_label, hfind, hst]
      · intro h; rw [h] at hfind; exact absurd hfind (by simp)
      · intro label' hl'
        rw [hfind] at hl'
        injection hl' with hl'
        subst hl'
        refine ⟨fun _ => ?_, fun h => absurd h hst⟩
        simp [receive_next_process_label, hfind, hst]
      · intro _
        simp [receive_next_process_label, hfind, hst]
      · intro h
        simp [receive_next_process_label, hfind, hst] at h


/-- Witness for C3: on a store with no labels, receiving any code reports
NotFound, and the store is unchanged. -/
theorem C3_receive_failures_witness :
    (receive_next_process_label sampleStore "NP-NONE" "EXTRUDER" 10 none none none
      "2026-03-01 09:00").1.2 = .not_found ∧
    (receive_next_process_label sampleStore "NP-NONE" "EXTRUDER" 10 none none none
      "2026-03-01 09:00").2 = sampleStore :=
  ⟨(C3_receive_failures sampleStore "NP-NONE" "EXTRUDER" 10 none none none
      "2026-03-01 09:00").2.1 (by decide),
   (C3_receive_failures sampleStore "NP-NONE" "EXTRUDER" 10 none none none
      "2026-03-01 09:00").2.2.2.1 (by decide)⟩


/-- `round(0, 2) = 0`. -/
lemma round2_zero : round2 0 = 0 := by norm_num [round2, pyRoundInt]

/-- If no element of the first list satisfies the predicate, `find?` on the
concatenation searches the second list. -/
lemma find?_append_none {α : Type} (p : α → Bool) (l1 l2 : List α)
    (h : l1.find? p = none) : (l1 ++ l2).find? p = l2.find? p := by
  induction l1 with
  | nil => rfl
  | cons a as ih =>
    rw [List.find?_cons] at h
    rcases hpa : p a with _ | _
    · rw [hpa] at h
      rw [List.cons_append, List.find?_cons, hpa]
      exact ih h
    · rw [hpa] at h; exact absurd h (by simp)

/-- C9: for every existing batch (with its job/customer/product rows present
for the label join), every pair of adjacent stages `A = PROCESS_FLOW[i]` and
`B = PROCESS_FLOW[i+1]`, and every quantity `q`: issuing a transfer label from
A to B with quantity `q` (with a fresh barcode, as the timestamped generator
provides) and then receiving the returned code at stage B with quantity `q`
succeeds, reports loss 0, marks the label RECEIVED with `received_qty = q` and
`qty_loss = 0`, and leaves the batch row at `(B, OPEN)`. -/
theorem C9_round_trip (db : Store) (bid : Nat) (b : Batch) (j : Job) (c : Customer) (p : Product)
    (i : Nat) (q : ℚ) (machine_id : Option Nat) (op notes : Option String)
    (stamp micro now : String) (machine2 : Option Nat) (rec2 notes2 : Option String)
    (now2 : String) (new_id : Nat)
    (hb : db.batches.find? (fun x => x.id = bid) = some b)
    (hj : db.jobs.find? (fun x => x.id = b.job_id) = some j)
    (hc : db.customers.find? (fun x => x.id = j.customer_id) = some c)
    (hp : db.products.find? (fun x => x.id = j.product_id) = some p)
    (_adj : i + 1 < PROCESS_FLOW.length)
    (hfresh : ∀ l ∈ db.next_process_labels,
      l.transfer_barcode ≠
        build_next_process_barcode b.batch_no (PROCESS_FLOW.getD i "")
          (PROCESS_FLOW.getD (i + 1) "") stamp) :
    (create_next_process_label db bid (PROCESS_FLOW.getD i "") (PROCESS_FLOW.getD (i + 1) "")
        q machine_id op notes stamp micro now new_id).1 =
      some (build_next_process_barcode b.batch_no (PROCESS_FLOW.getD i "")
        (PROCESS_FLOW.getD (i + 1) "") stamp) ∧
    (receive_next_process_label
        (create_next_process_label db bid (PROCESS_FLOW.getD i "") (PROCESS_FLOW.getD (i + 1) "")
          q machine_id op notes stamp micro now new_id).2
        (build_next_process_barcode b.batch_no (PROCESS_FLOW.getD i "")
          (PROCESS_FLOW.getD (i + 1) "") stamp)
        (PROCESS_FLOW.getD (i + 1) "") q machine2 rec2 notes2 now2).1 =
      (true, .received (round2 q) 0) ∧
    ((receive_next_process_label
        (create_next_process_label db bid (PROCESS_FLOW.getD i "") (PROCESS_FLOW.getD (i + 1) "")
          q machine_id op notes stamp micro now new_id).2
        (build_next_process_barcode b.batch_no (PROCESS_FLOW.getD i "")
          (PROCESS_FLOW.getD (i + 1) "") stamp)
        (PROCESS_FLOW.getD (i + 1) "") q machine2 rec2 notes2 now2).2.next_process_labels.find?
          (fun l => l.transfer_barcode =
            build_next_process_barcode b.batch_no (PROCESS_FLOW.getD i "")
              (PROCESS_FLOW.getD (i + 1) "") stamp)).map
        (fun l => (l.status, l.received_qty_kg, l.qty_loss_kg)) =
      some ("RECEIVED", some q, 0) ∧
    (receive_next_process_label
        (create_next_process_label db bid (PROCESS_FLOW.getD i "") (PROCESS_FLOW.getD (i + 1) "")
          q machine_id op notes stamp micro now new_id).2
        (build_next_process_barcode b.batch_no (PROCESS_FLOW.getD i "")
          (PROCESS_FLOW.getD (i + 1) "") stamp)
        (PROCESS_FLOW.getD (i + 1) "") q machine2 rec2 notes2 now2).2.batches.find?
        (fun x => x.id = bid) =
      some { b with current_process := PROCESS_FLOW.getD (i + 1) "", status := "OPEN" } := by
  have hbid : b.id = bid := by
    have := List.find?_some hb
    simpa using this
  set A := PROCESS_FLOW.getD i "" with hA
  set B := PROCESS_FLOW.getD (i + 1) "" with hB
  set code := build_next_process_barcode b.batch_no A B stamp with hcode
  have hany : (db.next_process_labels.any (fun l => l.transfer_barcode = code)) = false := by
    simp only [List.any_eq_false]
    intro l hl
    simpa using hfresh l hl
  have hcreate :
      create_next_process_label db bid A B q machine_id op notes stamp micro now new_id =
      (some code,
        { db with next_process_labels := db.next_process_labels ++
          [{ id := new_id, transfer_barcode := code, batch_id := bid, from_process := A,
             to_process := B, issued_qty_kg := q, received_qty_kg := none, qty_loss_kg := 0,
             status := "ISSUED", recipe_code := b.recipe_code, item_name := some p.name,
             document_no := some j.job_no, customer_name := some c.name, issued_at := now,
             received_at := none, issued_machine_id := machine_id, received_machine_id := none,
             issued_by := op, received_by := none, notes := notes }] }) := by
    simp [create_next_process_label, batch_info?, hb, hj, hc, hp, hany, ← hcode]
  rw [hcreate]
  have hfindnone : db.next_process_labels.find? (fun l => l.transfer_barcode = code) = none := by
    rw [List.find?_eq_none]
    intro l hl
    simpa using hfresh l hl
  set newLabel : NextProcessLabel :=
    { id := new_id, transfer_barcode := code, batch_id := bid, from_process := A,
      to_process := B, issued_qty_kg := q, received_qty_kg := none, qty_loss_kg := 0,
      status := "ISSUED", recipe_code := b.recipe_code, item_name := some p.name,
      document_no := some j.job_no, customer_name := some c.name, issued_at := now,
      received_at := none, issued_machine_id := machine_id, received_machine_id := none,
      issued_by := op, received_by := none, notes := notes } with hnew
  have hfind2 :
      (db.next_process_labels ++ [newLabel]).find? (fun l => l.transfer_barcode = code) =
        some newLabel := by
    rw [find?_append_none _ _ _ hfindnone]
    simp [hnew]
  have hloss : max 0 (round2 (newLabel.issued_qty_kg - q)) = 0 := by
    simp [hnew, round2_zero]
  have hrecv :
      receive_next_process_label
        { db with next_process_labels := db.next_process_labels ++ [newLabel] }
        code B q machine2 rec2 notes2 now2 =
      ((true, .received (round2 q) 0),
        { db with
          batches := updateBatchRow db.batches bid B "OPEN"
          next_process_labels := updateLabelRow (db.next_process_labels ++ [newLabel]) new_id
            (fun l => { l with
              received_qty_kg := some q
              qty_loss_kg := 0
              status := "RECEIVED"
              received_at := some now2
              received_machine_id := machine2
              received_by := rec2
              notes := pyOrStr notes2 l.notes }) }) := by
    rw [receive_next_process_label.eq_def]
    simp only [hfind2]
    simp [hnew, sub_self, round2_zero]
  refine ⟨rfl, ?_, ?_, ?_⟩
  · rw [hrecv]
  · rw [hrecv]
    simp only
    rw [updateLabelRow, find?_map_pres _ _ (by
      intro a
      by_cases ha : a.id = new_id <;> simp [ha]), hfind2]
    simp [hnew]
  · rw [hrecv]
    simp only
    rw [updateBatchRow, find?_map_pres _ _ (by
      intro a
      by_cases ha : a.id = bid <;> simp [ha]), hb]
    simp [hbid]


/-- Witness for C9: issue MIXING -> EXTRUDER for 250 KG on the sample store,
then receive at EXTRUDER for 250 KG: the batch row ends at `(EXTRUDER, OPEN)`. -/
theorem C9_round_trip_witness :
    ((receive_next_process_label
        (create_next_process_label sampleStore 1 (PROCESS_FLOW.getD 0 "")
          (PROCESS_FLOW.getD 1 "") 250 none (some "Ali") none "20260301080100" "123456"
          "2026-03-01 08:01" 7).2
        (build_next_process_barcode "BAT-0001" (PROCESS_FLOW.getD 0 "")
          (PROCESS_FLOW.getD 1 "") "20260301080100")
        (PROCESS_FLOW.getD 1 "") 250 none (some "Tan") none "2026-03-01 09:00").2.batches.find?
        (fun x => x.id = 1)) =
      some { sampleBatch with current_process := PROCESS_FLOW.getD 1 "", status := "OPEN" } :=
  (C9_round_trip sampleStore 1 sampleBatch sampleJob sampleCustomer sampleProduct 0 250
    none (some "Ali") none "20260301080100" "123456" "2026-03-01 08:01" none (some "Tan")
    none "2026-03-01 09:00" 7 (by decide) (by decide) (by decide) (by decide) (by decide)
    (by decide)).2.2.2


/-- The shape of any `update_batch_stage` result: only the batch rows with the
target id change, to some `(current_process, status)` pair. -/
lemma update_batch_stage_shape (db : Store) (bid : Nat) (pn na : String) :
    ∃ proc stat, update_batch_stage db bid pn na =
      { db with batches := updateBatchRow db.batches bid proc stat } := by
  unfold update_batch_stage
  split
  · exact ⟨pn, "HOLD", rfl⟩
  · exact ⟨_, _, rfl⟩


/-- The `create_next_process_label` join reads only key-preserved columns, so
it is unaffected by a prior stage update and log insert. -/
lemma batch_info?_update (db : Store) (pls : List ProcessLog) (bid : Nat)
    (proc stat : String) (tid : Nat) :
    batch_info?
      { db with
        process_logs := pls
        batches := updateBatchRow db.batches bid proc stat } tid = batch_info? db tid := by
  unfold batch_info?
  simp only
  rw [updateBatchRow, find?_map_pres _ _ (by
    intro a
    by_cases h : a.id = bid <;> simp [h])]
  cases hf : db.batches.find? (fun x => x.id = tid) with
  | none => rfl
  | some b => by_cases h : b.id = bid <;> simp [h]




/-- C4: for every process scan recorded on an existing batch (whose job,
customer and product rows are present, ids are unique as the primary keys
guarantee, and the generated barcode is fresh) with a recognized stage name
and action, a transfer label is issued if and only if `next_action` is
MOVE_NEXT and the scanned stage is not the terminal stage STORE_RECEIVING;
when issued, the label's `from_process` is the scanned stage, its
`to_process` the stage following it in the seven-stage sequence, its issued
quantity the scan's good quantity, and its status ISSUED; a MOVE_NEXT scan at
STORE_RECEIVING issues no label and leaves the batch at
`(COMPLETED, COMPLETED)`. -/
theorem C4_scan_label_issue (db : Store) (text pn time : String) (iq gq rq : ℚ) (na : String)
    (op rem : Option String) (mid : Option Nat) (log_id label_id : Nat)
    (stamp micro now : String) (batch : Batch) (j : Job) (c : Customer) (p : Product)
    (hb : db.batches.find? (fun b => b.batch_no = text ∨ b.barcode_text = text) = some batch)
    (hbid : db.batches.find? (fun x => x.id = batch.id) = some batch)
    (hj : db.jobs.find? (fun x => x.id = batch.job_id) = some j)
    (hc : db.customers.find? (fun x => x.id = j.customer_id) = some c)
    (hp : db.products.find? (fun x => x.id = j.product_id) = some p)
    (hpn : pn ∈ PROCESS_FLOW)
    (hna : na ∈ (["MOVE_NEXT", "REJECTED", "REWORK"] : List String))
    (hfresh : ∀ l ∈ db.next_process_labels,
      l.transfer_barcode ≠ build_next_process_barcode batch.batch_no pn
        (PROCESS_FLOW.getD (PROCESS_FLOW.indexOf pn + 1) "") stamp) :
    ((∃ code,
        (scan_process db text pn time iq gq rq na op rem mid log_id label_id
          stamp micro now).1 = .recorded (some code)) ↔
      (na = "MOVE_NEXT" ∧ pn ≠ "STORE_RECEIVING")) ∧
    (na = "MOVE_NEXT" → pn ≠ "STORE_RECEIVING" →
      ∃ lab,
        (scan_process db text pn time iq gq rq na op rem mid log_id label_id
          stamp micro now).2.next_process_labels = db.next_process_labels ++ [lab] ∧
        lab.from_process = pn ∧
        (∀ i, i + 1 < PROCESS_FLOW.length → pn = PROCESS_FLOW.getD i "" →
          lab.to_process = PROCESS_FLOW.getD (i + 1) "") ∧
        lab.issued_qty_kg = gq ∧
        lab.status = "ISSUED") ∧
    (¬(na = "MOVE_NEXT" ∧ pn ≠ "STORE_RECEIVING") →
      (scan_process db text pn time iq gq rq na op rem mid log_id label_id
        stamp micro now).2.next_process_labels = db.next_process_labels) ∧
    (na = "MOVE_NEXT" → pn = "STORE_RECEIVING" →
      (scan_process db text pn time iq gq rq na op rem mid log_id label_id
        stamp micro now).1 = .recorded none ∧
      (scan_process db text pn time iq gq rq na op rem mid log_id label_id
        stamp micro now).2.batches.find? (fun x => x.id = batch.id) =
        some { batch with current_process := "COMPLETED", status := "COMPLETED" }) := by
  by_cases hna1 : na = "MOVE_NEXT"
  · by_cases hterm : pn = "STORE_RECEIVING"
    · subst hna1; subst hterm
      have hscan :
          scan_process db text "STORE_RECEIVING" time iq gq rq "MOVE_NEXT" op rem mid
            log_id label_id stamp micro now =
          (.recorded none,
            { db with
              process_logs := db.process_logs ++
                [{ id := log_id, batch_id := batch.id, process_name := "STORE_RECEIVING",
                   scan_time := time, input_qty_kg := iq, good_qty_kg := gq,
                   reject_qty_kg := rq, operator_name := op, machine_id := mid,
                   next_action := "MOVE_NEXT", remarks := rem }]
              batches := updateBatchRow db.batches batch.id "COMPLETED" "COMPLETED" }) := by
        rw [scan_process.eq_def]
        simp only [hb]
        rw [if_neg (by decide), if_neg (by decide), if_neg (by decide)]
        rw [update_batch_stage.eq_def]
        rw [if_neg (by decide)]
        rfl
      refine ⟨?_, ?_, ?_, ?_⟩
      · constructor
        · rintro ⟨code, hcode⟩
          rw [hscan] at hcode
          exact absurd hcode (by simp)
        · rintro ⟨-, habs⟩
          exact absurd rfl habs
      · intro _ habs; exact absurd rfl habs
      · intro _
        rw [hscan]
      · intro _ _
        refine ⟨by rw [hscan], ?_⟩
        rw [hscan]
        simp only
        rw [updateBatchRow, find?_map_pres _ _ (by
          intro a
          by_cases ha : a.id = batch.id <;> simp [ha]), hbid]
        simp
    · subst hna1
      have hterm' : pn ≠ PROCESS_FLOW.getLastD "" := hterm
      have hinfo : batch_info? db batch.id =
          some { batch_no := batch.batch_no, recipe_code := batch.recipe_code,
                 job_no := j.job_no, customer_name := c.name, item_name := p.name } := by
        simp [batch_info?, hbid, hj, hc, hp]
      have hany : (db.next_process_labels.any (fun l => l.transfer_barcode =
          build_next_process_barcode batch.batch_no pn
            (PROCESS_FLOW.getD (PROCESS_FLOW.indexOf pn + 1) "") stamp)) = false := by
        simp only [List.any_eq_false]
        intro l hl
        simpa using hfresh l hl
      obtain ⟨proc, stat, hup⟩ := update_batch_stage_shape
        { db with process_logs := db.process_logs ++
          [{ id := log_id, batch_id := batch.id, process_name := pn,
             scan_time := time, input_qty_kg := iq, good_qty_kg := gq,
             reject_qty_kg := rq, operator_name := op, machine_id := mid,
             next_action := "MOVE_NEXT", remarks := rem }] }
        batch.id pn "MOVE_NEXT"
      have hfinal :
          scan_process db text pn time iq gq rq "MOVE_NEXT" op rem mid log_id label_id
            stamp micro now =
          (.recorded (some (build_next_process_barcode batch.batch_no pn
              (PROCESS_FLOW.getD (PROCESS_FLOW.indexOf pn + 1) "") stamp)),
            { db with
              process_logs := db.process_logs ++
                [{ id := log_id, batch_id := batch.id, process_name := pn,
                   scan_time := time, input_qty_kg := iq, good_qty_kg := gq,
                   reject_qty_kg := rq, operator_name := op, machine_id := mid,
                   next_action := "MOVE_NEXT", remarks := rem }]
              batches := updateBatchRow db.batches batch.id proc stat
              next_process_labels := db.next_process_labels ++
                [{ id := label_id,
                   transfer_barcode := build_next_process_barcode batch.batch_no pn
                     (PROCESS_FLOW.getD (PROCESS_FLOW.indexOf pn + 1) "") stamp,
                   batch_id := batch.id, from_process := pn,
                   to_process := PROCESS_FLOW.getD (PROCESS_FLOW.indexOf pn + 1) "",
                   issued_qty_kg := gq, received_qty_kg := none, qty_loss_kg := 0,
                   status := "ISSUED", recipe_code := batch.recipe_code,
                   item_name := some p.name, document_no := some j.job_no,
                   customer_name := some c.name, issued_at := now,
                   received_at := none, issued_machine_id := mid,
                   received_machine_id := none, issued_by := op, received_by := none,
                   notes := rem }] }) := by
        rw [scan_process.eq_def]
        simp only [hb]
        rw [if_neg (by simp [hpn]), if_neg (by decide), if_pos ⟨by simp, hpn, hterm'⟩]
        rw [hup]
        rw [create_next_process_label.eq_def,
          batch_info?_update db _ batch.id proc stat batch.id, hinfo]
        simp only [hany, Bool.false_eq_true, if_false]
      refine ⟨?_, ?_, ?_, ?_⟩
      · constructor
        · intro _; exact ⟨rfl, hterm⟩
        · intro _
          exact ⟨_, by rw [hfinal]⟩
      · intro _ _
        refine ⟨_, by rw [hfinal], rfl, ?_, rfl, rfl⟩
        intro i hi hpni
        have hi6 : i ≤ 5 := by simpa [PROCESS_FLOW] using Nat.lt_succ_iff.mp hi
        interval_cases i <;> subst hpni <;> rfl
      · rintro habs
        exact absurd ⟨rfl, hterm⟩ habs
      · intro _ habs
        exact absurd habs hterm
  · have hscan :
        scan_process db text pn time iq gq rq na op rem mid log_id label_id
          stamp micro now =
        (.recorded none,
          update_batch_stage
            { db with process_logs := db.process_logs ++
              [{ id := log_id, batch_id := batch.id, process_name := pn,
                 scan_time := time, input_qty_kg := iq, good_qty_kg := gq,
                 reject_qty_kg := rq, operator_name := op, machine_id := mid,
                 next_action := na, remarks := rem }] }
            batch.id pn na) := by
      rw [scan_process.eq_def]
      simp only [hb]
      rw [if_neg (by simp [hpn]), if_neg (by simp [hna]),
        if_neg (by rintro ⟨h1, -⟩; exact hna1 h1)]
    obtain ⟨proc, stat, hup⟩ := update_batch_stage_shape
      { db with process_logs := db.process_logs ++
        [{ id := log_id, batch_id := batch.id, process_name := pn,
           scan_time := time, input_qty_kg := iq, good_qty_kg := gq,
           reject_qty_kg := rq, operator_name := op, machine_id := mid,
           next_action := na, remarks := rem }] }
      batch.id pn na
    refine ⟨?_, ?_, ?_, ?_⟩
    · constructor
      · rintro ⟨code, hcode⟩
        rw [hscan] at hcode
        exact absurd hcode (by simp)
      · rintro ⟨h1, -⟩
        exact absurd h1 hna1
    · intro h1; exact absurd h1 hna1
    · intro _
      rw [hscan]
      simp only
      rw [hup]
    · intro h1; exact absurd h1 hna1


/-- Witness for C4: a MOVE_NEXT scan at STORE_RECEIVING on the sample store
issues no label and completes the batch. -/
theorem C4_scan_label_issue_witness :
    (scan_process sampleStore "BAT-0001" "STORE_RECEIVING" "2026-03-01 10:00" 450 440 10
      "MOVE_NEXT" (some "Ali") none none 5 6 "20260301100000" "123456"
      "2026-03-01 10:00").1 = .recorded none ∧
    (scan_process sampleStore "BAT-0001" "STORE_RECEIVING" "2026-03-01 10:00" 450 440 10
      "MOVE_NEXT" (some "Ali") none none 5 6 "20260301100000" "123456"
      "2026-03-01 10:00").2.batches.find? (fun x => x.id = sampleBatch.id) =
      some { sampleBatch with current_process := "COMPLETED", status := "COMPLETED" } :=
  (C4_scan_label_issue sampleStore "BAT-0001" "STORE_RECEIVING" "2026-03-01 10:00" 450 440 10
    "MOVE_NEXT" (some "Ali") none none 5 6 "20260301100000" "123456" "2026-03-01 10:00"
    sampleBatch sampleJob sampleCustomer sampleProduct (by decide) (by decide) (by decide)
    (by decide) (by decide) (by decide) (by decide) (by decide)).2.2.2 rfl rfl


/-- The domain of `current_process` values the spec allows: a stage-sequence
member or the `NOT_STARTED` / `COMPLETED` sentinels. -/

def stageOk (s : String) : Prop :=
  s ∈ PROCESS_FLOW ∨ s = "NOT_STARTED" ∨ s = "COMPLETED"

instance (s : String) : Decidable (stageOk s) := by unfold stageOk; infer_instance

def holdBatch : Batch := { sampleBatch with current_process := "FINISHING", status := "HOLD" }

def holdStore : Store := { sampleStore with batches := [holdBatch] }

lemma stageOk_updateBatchRow (bs : List Batch) (bid : Nat) (proc stat : String)
    (hproc : stageOk proc) (hbs : ∀ b ∈ bs, stageOk b.current_process) :
    ∀ b ∈ updateBatchRow bs bid proc stat, stageOk b.current_process := by
  intro b hb
  obtain ⟨a, ha, rfl⟩ := List.mem_map.mp hb
  by_cases h : a.id = bid
  · simpa [h] using hproc
  · simpa [h] using hbs a ha

lemma stageOk_update_batch_stage (db : Store) (bid : Nat) (pn na : String)
    (hpn : pn ∈ PROCESS_FLOW) (hbs : ∀ b ∈ db.batches, stageOk b.current_process) :
    ∀ b ∈ (update_batch_stage db bid pn na).batches, stageOk b.current_process := by
  unfold update_batch_stage
  split
  · exact stageOk_updateBatchRow _ _ _ _ (Or.inl hpn) hbs
  · refine stageOk_updateBatchRow _ _ _ _ ?_ hbs
    have h7 : pn = "MIXING" ∨ pn = "EXTRUDER" ∨ pn = "VULCANISING" ∨ pn = "CUTTING" ∨
        pn = "FINISHING" ∨ pn = "PACKING" ∨ pn = "STORE_RECEIVING" := by
      simpa [PROCESS_FLOW] using hpn
    rcases h7 with rfl | rfl | rfl | rfl | rfl | rfl | rfl <;> decide

lemma create_next_process_label_batches (db : Store) (batch_id : Nat)
    (fp tp : String) (q : ℚ) (mid : Option Nat) (op notes : Option String)
    (stamp micro now : String) (new_id : Nat) :
    (create_next_process_label db batch_id fp tp q mid op notes stamp micro now
      new_id).2.batches = db.batches := by
  rw [create_next_process_label.eq_def]
  rcases batch_info? db batch_id with _ | info
  · rfl
  · dsimp only
    split <;> first | rfl | (split <;> rfl)


/-- C5 (amended): when operations carry stage names validated against the
sequence (as the routes enforce before calling them), every batch's
`current_process` stays a member of the seven-stage sequence or
`NOT_STARTED`/`COMPLETED` under stage transitions, label receipts and scans.
The monotonicity and HOLD-freeze parts of the claim are false on the code
(see the counterexample): no operation consults the batch's current position
or HOLD status. -/
theorem C5_stage_invariant (db : Store) :
    (∀ bid pn na, pn ∈ PROCESS_FLOW →
      (∀ b ∈ db.batches, stageOk b.current_process) →
      ∀ b ∈ (update_batch_stage db bid pn na).batches, stageOk b.current_process) ∧
    (∀ code proc q mid rec notes now, proc ∈ PROCESS_FLOW →
      (∀ b ∈ db.batches, stageOk b.current_process) →
      ∀ b ∈ (receive_next_process_label db code proc q mid rec notes now).2.batches,
        stageOk b.current_process) ∧
    (∀ text pn time iq gq rq na op rem mid lid labid stamp micro now,
      (∀ b ∈ db.batches, stageOk b.current_process) →
      ∀ b ∈ (scan_process db text pn time iq gq rq na op rem mid lid labid
        stamp micro now).2.batches, stageOk b.current_process) := by
  refine ⟨fun bid pn na hpn hbs => stageOk_update_batch_stage db bid pn na hpn hbs, ?_, ?_⟩
  · intro code proc q mid rec notes now hproc hbs
    rw [receive_next_process_label.eq_def]
    cases hf : db.next_process_labels.find? (fun l => l.transfer_barcode = code) with
    | none => exact hbs
    | some label =>
      dsimp only
      split
      · exact hbs
      · split
        · exact hbs
        · exact stageOk_updateBatchRow _ _ _ _ (Or.inl hproc) hbs
  · intro text pn time iq gq rq na op rem mid lid labid stamp micro now hbs
    rw [scan_process.eq_def]
    cases hf : db.batches.find?
        (fun b => b.batch_no = text ∨ b.barcode_text = text) with
    | none => exact hbs
    | some batch =>
      dsimp only
      split
      · exact hbs
      · next hpn2 =>
        split
        · exact hbs
        · have hup := stageOk_update_batch_stage
            { db with process_logs := db.process_logs ++
              [{ id := lid, batch_id := batch.id, process_name := pn, scan_time := time,
                 input_qty_kg := iq, good_qty_kg := gq, reject_qty_kg := rq,
                 operator_name := op, machine_id := mid, next_action := na,
                 remarks := rem }] }
            batch.id pn na (not_not.mp (by simpa using hpn2)) hbs
          split
          · intro b hb
            rw [create_next_process_label_batches] at hb
            exact hup b hb
          · exact hup


/-- Witness for C5: after a MOVE_NEXT scan transition at MIXING on the sample
store, the (single) batch row's stage is still in the allowed domain. -/
theorem C5_stage_invariant_witness :
    stageOk ((update_batch_stage sampleStore 1 "MIXING" "MOVE_NEXT").batches.getD 0
      sampleBatch).current_process :=
  (C5_stage_invariant sampleStore).1 1 "MIXING" "MOVE_NEXT" (by decide) (by decide) _
    (by decide)

/-- Counterexample for C5 as stated: on a store whose batch sits at FINISHING
with status HOLD, a MOVE_NEXT scan at MIXING moves the batch to
`(EXTRUDER, OPEN)` -- a batch whose status is HOLD is advanced by a scan, and
its `current_process` moves to an earlier stage of the sequence
(EXTRUDER is at index 1, FINISHING at index 4). -/
theorem C5_stage_invariant_counterexample :
    holdBatch.status = "HOLD" ∧
    holdBatch.current_process = "FINISHING" ∧
    ((scan_process holdStore "BAT-0001" "MIXING" "2026-03-01 10:00" 100 100 0 "MOVE_NEXT"
        none none none 5 6 "20260301100000" "123456" "2026-03-01 10:00").2.batches.find?
      (fun x => x.id = 1)).map (fun x => (x.current_process, x.status)) =
      some ("EXTRUDER", "OPEN") ∧
    PROCESS_FLOW.indexOf "EXTRUDER" < PROCESS_FLOW.indexOf "FINISHING" := by
  decide



/-- A sample order line with a job, used by the snapshot claims. -/
def cexItem : ItemRow :=
  { id := 1, status := "JOB_CREATED", due_date := none, created_at := "2026-02-28 08:00",
    job_id := some 1 }

/-- A scan at EXTRUDER (stage index 1). -/
def cexLog : ProcessLog :=
  { id := 1, batch_id := 1, process_name := "EXTRUDER", scan_time := "2026-03-01 09:00",
    input_qty_kg := 500, good_qty_kg := 496, reject_qty_kg := 4, operator_name := some "Ali",
    machine_id := none, next_action := "MOVE_NEXT", remarks := none }

/-- C6 (amended): for every order line whose snapshot finds a latest
process-log entry and whose batch status is not COMPLETED, the snapshot's
`current_stage` is that entry's process name; if that name sits at index `i`
of the seven-stage sequence, `progress_pct` is the TRUNCATION
`⌊100 × (i+1) / 7⌋` clamped to 100 (Python `int()`, not `round` as the claim
stated); and a REJECTED `next_action` forces status HOLD. -/
theorem C6_snapshot_scan_layer (item : ItemRow) (planner : Option PlannerUpdateRow)
    (b : Batch) (lg : ProcessLog) (ev : Option String)
    (hbs : b.status ≠ "COMPLETED") :
    (snapshot_core item planner (some b) (some lg) ev).current_stage = lg.process_name ∧
    (∀ i, i < PROCESS_FLOW.length → lg.process_name = PROCESS_FLOW.getD i "" →
      (snapshot_core item planner (some b) (some lg) ev).progress_pct =
        min 100 ⌊((i + 1 : ℚ) / (PROCESS_FLOW.length : ℚ)) * 100⌋) ∧
    (lg.next_action = "REJECTED" →
      (snapshot_core item planner (some b) (some lg) ev).status = "HOLD") := by
  refine ⟨?_, ?_, ?_⟩
  · simp [snapshot_core, hbs]
  · intro i hi hpni
    have hi6 : i ≤ 6 := by simpa [PROCESS_FLOW] using Nat.lt_succ_iff.mp hi
    interval_cases i <;>
      simp [snapshot_core, hbs, hpni, PROCESS_FLOW]
  · intro hrej
    simp [snapshot_core, hbs, hrej]


/-- Witness for C6: with a batch at MIXING/OPEN and a latest scan at EXTRUDER,
the snapshot stage is EXTRUDER (and by the amended formula its progress is
28). -/
theorem C6_snapshot_scan_layer_witness :
    (snapshot_core cexItem none (some sampleBatch) (some cexLog) none).current_stage =
      "EXTRUDER" :=
  (C6_snapshot_scan_layer cexItem none sampleBatch cexLog none (by decide)).1

/-- Counterexample for C6 as stated: the scan at EXTRUDER (index 1) yields
`progress_pct = 28` -- the truncation of 100 x 2/7 = 28.57 -- while the
claim's `round(100 x 2/7)` is 29. -/
theorem C6_snapshot_scan_layer_counterexample :
    cexLog.process_name = PROCESS_FLOW.getD 1 "" ∧
    (snapshot_core cexItem none (some sampleBatch) (some cexLog) none).progress_pct = 28 ∧
    min 100 (round ((((1 : ℚ) + 1) / (PROCESS_FLOW.length : ℚ)) * 100)) = 29 ∧
    (28 : ℤ) ≠ 29 := by
  refine ⟨by decide, ?_, ?_, by decide⟩
  · simp [snapshot_core, cexItem, cexLog, sampleBatch, PROCESS_FLOW]
    norm_num
  · rw [round_eq]
    norm_num [PROCESS_FLOW]


def maxDelta (logs : List ProcessLog) : ℚ :=
  logs.foldl (fun m lg => max m (logDelta lg)) (-1)

/-- The amended probable-loss rule: the stage of the first scan attaining the
largest per-scan `(input - good)` delta, provided that delta exceeds the
`-1.0` sentinel the source loop starts from; `none` otherwise. -/
def probable_loss_spec (logs : List ProcessLog) : Option String :=
  if maxDelta logs ≤ -1 then none
  else (logs.find? (fun lg => logDelta lg = maxDelta logs)).map (fun lg => lg.process_name)

lemma le_maxFold (logs : List ProcessLog) :
    ∀ ml : ℚ, ml ≤ logs.foldl (fun m lg => max m (logDelta lg)) ml := by
  induction logs with
  | nil => intro ml; exact le_refl ml
  | cons lg rest ih =>
    intro ml
    calc ml ≤ max ml (logDelta lg) := le_max_left _ _
    _ ≤ rest.foldl (fun m lg => max m (logDelta lg)) (max ml (logDelta lg)) := ih _

lemma scanBest_eq (logs : List ProcessLog) :
    ∀ (ml : ℚ) (pp : Option String),
      scanBest logs ml pp =
        (logs.foldl (fun m lg => max m (logDelta lg)) ml,
          if logs.foldl (fun m lg => max m (logDelta lg)) ml ≤ ml then pp
          else (logs.find? (fun lg =>
              logDelta lg = logs.foldl (fun m lg => max m (logDelta lg)) ml)).map
            (fun lg => lg.process_name)) := by
  induction logs with
  | nil =>
    intro ml pp
    simp [scanBest]
  | cons lg rest ih =>
    intro ml pp
    by_cases h0 : ml < logDelta lg
    · have hstart : max ml (logDelta lg) = logDelta lg := max_eq_right h0.le
      have hM : rest.foldl (fun m lg => max m (logDelta lg)) (max ml (logDelta lg)) =
          rest.foldl (fun m lg => max m (logDelta lg)) (logDelta lg) := by rw [hstart]
      have hMge : logDelta lg ≤ rest.foldl (fun m lg => max m (logDelta lg)) (logDelta lg) :=
        le_maxFold rest _
      rw [scanBest, if_pos h0, ih, List.foldl_cons, hM]
      have hnotle : ¬ rest.foldl (fun m lg => max m (logDelta lg)) (logDelta lg) ≤ ml :=
        fun hle => absurd (lt_of_lt_of_le h0 (le_trans hMge hle)) (lt_irrefl ml)
      rw [if_neg hnotle]
      by_cases hM0 : rest.foldl (fun m lg => max m (logDelta lg)) (logDelta lg) ≤ logDelta lg
      · have hMeq : rest.foldl (fun m lg => max m (logDelta lg)) (logDelta lg) = logDelta lg :=
          le_antisymm hM0 hMge
        rw [if_pos hM0, hMeq]
        rw [List.find?_cons_of_pos _ (by simp)]
        simp
      · rw [if_neg hM0]
        rw [List.find?_cons_of_neg _ (by
          simp only [decide_eq_true_eq]
          intro heq
          exact hM0 (le_of_eq heq.symm))]
    · have hstart : max ml (logDelta lg) = ml := max_eq_left (not_lt.mp h0)
      have hM : rest.foldl (fun m lg => max m (logDelta lg)) (max ml (logDelta lg)) =
          rest.foldl (fun m lg => max m (logDelta lg)) ml := by rw [hstart]
      rw [scanBest, if_neg h0, ih, List.foldl_cons, hM]
      by_cases hM0 : rest.foldl (fun m lg => max m (logDelta lg)) ml ≤ ml
      · rw [if_pos hM0]
        rw [if_pos hM0]
      · rw [if_neg hM0]
        rw [if_neg hM0]
        rw [List.find?_cons_of_neg _ (by
          simp only [decide_eq_true_eq]
          intro heq
          exact hM0 (heq ▸ not_lt.mp h0))]


/-- The running `(max_loss, probable)` pair of the variance loop is the
running maximum of the deltas together with the name of the first scan that
strictly exceeded the starting accumulator and attained that maximum. -/
lemma scanBest_spec (logs : List ProcessLog) :
    (scanBest logs (-1) none).2 = probable_loss_spec logs := by
  rw [scanBest_eq]
  rfl

lemma foldl_add_reject (logs : List ProcessLog) :
    ∀ a : ℚ, logs.foldl (fun acc lg => acc + lg.reject_qty_kg) a =
      a + (logs.map (fun lg => lg.reject_qty_kg)).sum := by
  induction logs with
  | nil => intro a; simp
  | cons lg rest ih => intro a; simp [ih, add_assoc]


/-- C8 (amended): each batch's variance-report row has `first_input` equal to
the earliest scan's input (or `planned_input_kg` with no scans), `good_output`
the latest scan's good quantity (or 0), `total_reject` the sum of rejects
rounded to two decimals, `variance = round(first_input - good_output, 2)` and
`variance_pct = round(variance / first_input x 100, 2)` (both null with no
scans, the percentage also null when `first_input = 0`), and
`probable_loss_process` the stage of the first scan attaining the largest
`(input - good)` delta among scans whose delta exceeds the `-1.0` sentinel
the loop starts from (`none` when no scan does).  The claim's unrounded
`variance = first_input - good_output` and its unconditional largest-delta
rule for `probable_loss_process` are false on the code (see the
counterexample). -/
theorem C8_variance_report (planned : ℚ) (logs : List ProcessLog) :
    (logs = [] →
      get_batch_variance_row planned logs =
        { input_qty_kg := planned, good_output_kg := 0, total_reject_kg := 0,
          variance_kg := none, variance_pct := none, process_count := 0,
          probable_loss_process := none }) ∧
    (∀ lg0 rest, logs = lg0 :: rest →
      (get_batch_variance_row planned logs).input_qty_kg = lg0.input_qty_kg ∧
      (get_batch_variance_row planned logs).good_output_kg =
        ((lg0 :: rest).getLast (List.cons_ne_nil lg0 rest)).good_qty_kg ∧
      (get_batch_variance_row planned logs).variance_kg =
        some (round2 (lg0.input_qty_kg -
          ((lg0 :: rest).getLast (List.cons_ne_nil lg0 rest)).good_qty_kg)) ∧
      (lg0.input_qty_kg ≠ 0 →
        (get_batch_variance_row planned logs).variance_pct =
          some (round2 (round2 (lg0.input_qty_kg -
            ((lg0 :: rest).getLast (List.cons_ne_nil lg0 rest)).good_qty_kg) /
            lg0.input_qty_kg * 100))) ∧
      (lg0.input_qty_kg = 0 → (get_batch_variance_row planned logs).variance_pct = none)) ∧
    (get_batch_variance_row planned logs).total_reject_kg =
      round2 ((logs.map (fun lg => lg.reject_qty_kg)).sum) ∧
    (get_batch_variance_row planned logs).process_count = logs.length ∧
    (get_batch_variance_row planned logs).probable_loss_process = probable_loss_spec logs := by
  refine ⟨?_, ?_, ?_, ?_, ?_⟩
  · rintro rfl
    simp [get_batch_variance_row, scanBest, round2_zero, probable_loss_spec, maxDelta]
  · rintro lg0 rest rfl
    have hlast : (lg0 :: rest).getLast? = some ((lg0 :: rest).getLast (List.cons_ne_nil lg0 rest)) :=
      List.getLast?_eq_getLast _ _
    refine ⟨?_, ?_, ?_, ?_, ?_⟩
    · simp [get_batch_variance_row]
    · simp [get_batch_variance_row, hlast]
    · simp [get_batch_variance_row, hlast]
    · intro hne
      simp [get_batch_variance_row, hlast, hne]
    · intro hzero
      simp [get_batch_variance_row, hlast, hzero]
  · simp [get_batch_variance_row, foldl_add_reject]
  · simp [get_batch_variance_row]
  · simp [get_batch_variance_row, scanBest_spec]


/-- Witness for C8 (scenario 1): `planned_input_kg = 500` and no scans gives
`good_output = 0`, `variance_pct = null`. -/
theorem C8_variance_report_witness :
    get_batch_variance_row 500 [] =
      { input_qty_kg := 500, good_output_kg := 0, total_reject_kg := 0,
        variance_kg := none, variance_pct := none, process_count := 0,
        probable_loss_process := none } :=
  (C8_variance_report 500 []).1 rfl

/-- A scan whose quantities need more than two decimals. -/
def cexLogVarA : ProcessLog :=
  { id := 1, batch_id := 1, process_name := "MIXING", scan_time := "2026-03-01 08:00",
    input_qty_kg := 1001/1000, good_qty_kg := 0, reject_qty_kg := 0, operator_name := none,
    machine_id := none, next_action := "MOVE_NEXT", remarks := none }

def cexLogVarB : ProcessLog :=
  { id := 2, batch_id := 1, process_name := "MIXING", scan_time := "2026-03-01 08:00",
    input_qty_kg := 0, good_qty_kg := 1, reject_qty_kg := 0, operator_name := none,
    machine_id := none, next_action := "MOVE_NEXT", remarks := none }


/-- Counterexample for C8 as stated: with the single scan `cexLogVarA`
(`input = 1.001`, `good = 0`) the code reports `variance = 1` (it rounds to
two decimals), not the claimed `first_input - good_output = 1.001`; and with
the single scan `cexLogVarB` (delta `input - good = -1`, not above the
`-1.0` sentinel) the code reports `probable_loss_process = None` although the
claim's largest-delta rule names MIXING. -/
theorem C8_variance_report_counterexample :
    (get_batch_variance_row 500 [cexLogVarA]).variance_kg = some 1 ∧
    cexLogVarA.input_qty_kg - (get_batch_variance_row 500 [cexLogVarA]).good_output_kg =
      1001 / 1000 ∧
    (1 : ℚ) ≠ 1001 / 1000 ∧
    logDelta cexLogVarB = -1 ∧
    cexLogVarB.process_name = "MIXING" ∧
    (get_batch_variance_row 500 [cexLogVarB]).probable_loss_process = none := by
  refine ⟨?_, ?_, by norm_num, ?_, rfl, ?_⟩
  · simp [get_batch_variance_row, cexLogVarA]
    norm_num [round2, pyRoundInt]
  · norm_num [get_batch_variance_row, cexLogVarA]
  · norm_num [logDelta, cexLogVarB]
  · norm_num [get_batch_variance_row, scanBest, logDelta, cexLogVarB]


end CecV4
